import Mathlib

/-
Verification development for the arduinoClock firmware (arduinoClock.ino).

The firmware is a single-threaded alarm clock: a main `loop` services pending
EEPROM requests, runs the current UI mode's periodic logic (display refresh,
alarm matching, label timeouts, snooze expiry) and then polls five buttons
whose handler `handleButton` mutates the shared state.

Shallow embedding conventions:
* `DateTime` values (the RTC reading `now`, and the in-memory `alarmTime`)
  are modelled as seconds counted from 2000-01-01 00:00:00 (RTClib's
  `secondstime`), carried as `Int`.  `DateTime + TimeSpan(d,h,m,s)` is plain
  addition of `d*86400 + h*3600 + m*60 + s` seconds; the `hour()`, `minute()`
  and `second()` accessors are the usual quotient/remainder decomposition of
  the seconds-of-day.
* `millis()` is an external input: every tick / button event carries the
  millisecond counter value `ms` at which it happens, and every RTC-dependent
  tick carries the current RTC reading `now`.
* The display, serial port and PM LED have no observable state that any claim
  mentions, except the fields the source itself keeps (`lastDisplayRefresh`,
  `blinkState`), which are modelled.  The live RTC register is an input, not
  a state field, so `changeTime` (which writes the RTC) is verified separately
  as a pure function on times.
* The piezo is abstracted as the flag `toneOn`: `soundAlarm()` turns it on,
  `noTone(PIEZO)` turns it off (the automatic end of a fixed-duration tone is
  not modelled).
* EEPROM is part of the machine state: the three bytes at addresses 2..4
  (`eeHour`, `eeMin`, `eeSet`) plus `eeLog`, a ghost list recording every
  `writeAlarmToEeprom` call (the triple of bytes written), used to observe
  how many physical commits happen.
-/

namespace ArduinoClock

/-! ## Time values (RTClib DateTime / TimeSpan model) -/

/-- Seconds into the current day of a time value. -/
def secOfDay (t : Int) : Int := t % 86400

/-- Accessor `DateTime::hour()`. -/
def hourOf (t : Int) : Int := secOfDay t / 3600

/-- Accessor `DateTime::minute()`. -/
def minuteOf (t : Int) : Int := secOfDay t / 60 % 60

/-- Accessor `DateTime::second()`. -/
def secondOf (t : Int) : Int := secOfDay t % 60

/-- Index of the calendar day a time value falls on. -/
def dayOf (t : Int) : Int := (t - secOfDay t) / 86400

/-- Constant for 2019-01-01 00:00:00 as seconds since 2000-01-01 (6940 days). -/
def jan1of2019 : Int := 599616000

/-! ## Pure operations from the source -/

/-- Source `changeTime(hoursDelta, minutesDelta)` acting on the RTC value `t`:
`now + TimeSpan(0, hoursDelta, minutesDelta, minutesDelta == 0 ? 0 : -now.second())`. -/
def changeTime (t hoursDelta minutesDelta : Int) : Int :=
  t + hoursDelta * 3600 + minutesDelta * 60 +
    (if minutesDelta = 0 then 0 else -(secondOf t))

/-- Source `changeAlarmTime(hoursDelta, minutesDelta)` acting on the in-memory alarm
value `t`: `alarmTime + TimeSpan(0, hoursDelta, minutesDelta, 0)`. -/
def changeAlarmTime (t hoursDelta minutesDelta : Int) : Int :=
  t + hoursDelta * 3600 + minutesDelta * 60

/-- Source `changeBrightness(byte delta)` on the `brightness` byte: byte addition
(mod 256), then the `== 0xff` wrap guard, then the `> 0x7` clamp. -/
def changeBrightness (b delta : Nat) : Nat :=
  let b1 := (b + delta) % 256
  let b2 := if b1 = 255 then 0 else b1
  if b2 > 7 then 7 else b2

/-! ## Machine state -/

/-- Mirror of `enum UiState` in source order. -/
inductive UiState where
  | run
  | setStart
  | setHours
  | setMinutes
  | setAlarmStart
  | setAlarmHours
  | setAlarmMinutes
  | setAlarmOn
  | setAlarmOff
  | alarmSounding
  | alarmSnoozed
deriving DecidableEq, Repr

/-- Numeric value of a `UiState`, mirroring the C++ enum ordering used by
the range comparisons in `handleButton`. -/
def uiIdx : UiState → Nat
  | .run => 0
  | .setStart => 1
  | .setHours => 2
  | .setMinutes => 3
  | .setAlarmStart => 4
  | .setAlarmHours => 5
  | .setAlarmMinutes => 6
  | .setAlarmOn => 7
  | .setAlarmOff => 8
  | .alarmSounding => 9
  | .alarmSnoozed => 10

/-- The five buttons. -/
inductive Button where
  | set
  | setAlarm
  | minus
  | plus
  | snooz
deriving DecidableEq, Repr

/-- AceButton event kinds used by the handler. -/
inductive BEvent where
  | pressed
  | released
  | clicked
  | longPressed
deriving DecidableEq, Repr

/-- The firmware's mutable globals, plus the EEPROM bytes and a ghost log of
EEPROM commits. -/
structure ClockState where
  uiState : UiState
  lastStateSet : Nat
  lastDisplayRefresh : Nat
  blinkState : Bool
  lastAlarmAt : Nat
  lastSnoozAt : Nat
  requestEepromRead : Bool
  requestEepromWrite : Bool
  alarmTime : Int
  isAlarmSet : Bool
  fastTimeDirection : Int
  lastFastTimeTick : Nat
  brightness : Nat
  toneOn : Bool
  eeHour : Nat
  eeMin : Nat
  eeSet : Nat
  eeLog : List (Nat × Nat × Nat)
deriving DecidableEq, Repr

/-! ## State-transforming functions from the source -/

/-- Source `txToState(newState)`: clear display, set `uiState`, stamp `lastStateSet`. -/
def txToState (s : ClockState) (ms : Nat) (newState : UiState) : ClockState :=
  { s with uiState := newState, lastStateSet := ms }

/-- Source `readAlarmFromEeprom()`: clamp the two bytes, rebuild `alarmTime` as
`DateTime(2019,01,01,alarmHour,alarmMinute,0)`, load the enabled flag.
(The C++ `< 0` half of each range check is dead for a byte and is omitted.) -/
def readAlarmFromEeprom (s : ClockState) : ClockState :=
  let alarmHour := if 23 < s.eeHour then 0 else s.eeHour
  let alarmMinute := if 59 < s.eeMin then 0 else s.eeMin
  { s with
    alarmTime := jan1of2019 + (alarmHour : Int) * 3600 + (alarmMinute : Int) * 60,
    isAlarmSet := s.eeSet != 0 }

/-- The triple of bytes `writeAlarmToEeprom()` stores. -/
def cfgBytes (s : ClockState) : Nat × Nat × Nat :=
  ((hourOf s.alarmTime).toNat, (minuteOf s.alarmTime).toNat,
    if s.isAlarmSet then 1 else 0)

/-- Source `writeAlarmToEeprom()`: store hour, minute and flag bytes; the ghost log
records the commit. -/
def writeAlarmToEeprom (s : ClockState) : ClockState :=
  { s with
    eeHour := (hourOf s.alarmTime).toNat,
    eeMin := (minuteOf s.alarmTime).toNat,
    eeSet := if s.isAlarmSet then 1 else 0,
    eeLog := s.eeLog ++ [cfgBytes s] }

/-- Source `handleEepromState()`: service a pending read, else a pending write. -/
def handleEepromState (s : ClockState) : ClockState :=
  if s.requestEepromRead then
    { readAlarmFromEeprom s with requestEepromRead := false }
  else if s.requestEepromWrite then
    { writeAlarmToEeprom s with requestEepromWrite := false }
  else s

/-- Source `isAlarmTime()` against the RTC reading `now`. -/
def isAlarmTime (s : ClockState) (now : Int) : Bool :=
  if !s.isAlarmSet then false
  else
    (hourOf now == hourOf s.alarmTime) && (minuteOf now == minuteOf s.alarmTime)
      && (secondOf now == 0)

/-- Source `showCurrentTimeIfNeeded()`: repaint (stamping `lastDisplayRefresh`) when
the refresh interval elapsed or the mode changed since the last repaint. -/
def showCurrentTimeIfNeeded (s : ClockState) (ms : Nat) : ClockState :=
  if ms > s.lastDisplayRefresh + 1000 ∨ s.lastStateSet > s.lastDisplayRefresh then
    { s with lastDisplayRefresh := ms }
  else s

/-- Source `showSettableTime(t, blinkHours, blinkMinutes)`: only its state effect,
the blink toggle (BLINK_INTERVAL_ON = BLINK_INTERVAL_OFF = 400). -/
def showSettableTime (s : ClockState) (ms : Nat) (blinkHours blinkMinutes : Bool) :
    ClockState :=
  let shouldBlink := blinkHours || blinkMinutes
  if (shouldBlink && s.blinkState && decide (ms > s.lastDisplayRefresh + 400))
      || (shouldBlink && !s.blinkState && decide (ms > s.lastDisplayRefresh + 400)) then
    { s with blinkState := !s.blinkState, lastDisplayRefresh := ms }
  else s

/-- Wrapper applying `changeBrightness` to the state. -/
def changeBrightnessS (s : ClockState) (delta : Nat) : ClockState :=
  { s with brightness := changeBrightness s.brightness delta }

/-- Source `handleButton(btn, eventType)`: the full dispatch switch.  `changeTime`
writes only the RTC (an external input here), so those branches leave the
modelled state unchanged. -/
def handleButton (s : ClockState) (ms : Nat) (btn : Button) (ev : BEvent) :
    ClockState :=
  match btn with
  | .set =>
    if ev = .longPressed then
      if s.uiState = .run then txToState s ms .setStart
      else if 1 ≤ uiIdx s.uiState ∧ uiIdx s.uiState ≤ 3 then txToState s ms .run
      else s
    else if ev = .pressed then
      if s.uiState = .setStart then txToState s ms .setHours
      else if s.uiState = .setHours then txToState s ms .setMinutes
      else if s.uiState = .setMinutes then txToState s ms .run
      else s
    else s
  | .setAlarm =>
    if ev = .longPressed then
      if s.uiState = .run then
        txToState { s with requestEepromRead := true } ms .setAlarmStart
      else if 4 ≤ uiIdx s.uiState ∧ uiIdx s.uiState ≤ 6 then
        txToState { s with requestEepromWrite := true } ms .setAlarmOn
      else s
    else if ev = .clicked then
      if s.uiState = .run ∨ (7 ≤ uiIdx s.uiState ∧ uiIdx s.uiState ≤ 10) then
        let s1 := { s with toneOn := false }
        if s1.isAlarmSet then
          txToState { s1 with isAlarmSet := false } ms .setAlarmOff
        else
          txToState { s1 with isAlarmSet := true } ms .setAlarmOn
      else if s.uiState = .setAlarmStart then txToState s ms .setAlarmHours
      else if s.uiState = .setAlarmHours then txToState s ms .setAlarmMinutes
      else if s.uiState = .setAlarmMinutes then
        txToState { s with requestEepromWrite := true } ms .setAlarmOn
      else s
    else s
  | .minus =>
    if ev = .pressed then
      if s.uiState = .setHours then s
      else if s.uiState = .setMinutes then s
      else if s.uiState = .setAlarmHours then
        { s with alarmTime := changeAlarmTime s.alarmTime (-1) 0 }
      else if s.uiState = .setAlarmMinutes then
        { s with alarmTime := changeAlarmTime s.alarmTime 0 (-1) }
      else if s.uiState = .run then changeBrightnessS s 255
      else s
    else if ev = .longPressed then { s with fastTimeDirection := -1 }
    else if ev = .released then { s with fastTimeDirection := 0 }
    else s
  | .plus =>
    if ev = .pressed then
      if s.uiState = .setHours then s
      else if s.uiState = .setMinutes then s
      else if s.uiState = .setAlarmHours then
        { s with alarmTime := changeAlarmTime s.alarmTime 1 0 }
      else if s.uiState = .setAlarmMinutes then
        { s with alarmTime := changeAlarmTime s.alarmTime 0 1 }
      else if s.uiState = .run then changeBrightnessS s 1
      else s
    else if ev = .longPressed then { s with fastTimeDirection := 1 }
    else if ev = .released then { s with fastTimeDirection := 0 }
    else s
  | .snooz =>
    if ev = .pressed then
      if s.uiState = .alarmSounding then
        txToState { s with lastSnoozAt := ms, toneOn := false } ms .alarmSnoozed
      else s
    else if ev = .longPressed then
      txToState { s with toneOn := false } ms .run
    else s

/-- One pass of the mode `switch` in `loop()` (after `handleEepromState`),
at millis `ms` with RTC reading `now`. -/
def loopSwitch (s1 : ClockState) (ms : Nat) (now : Int) : ClockState :=
  match s1.uiState with
  | .run =>
    let s2 := showCurrentTimeIfNeeded s1 ms
    if isAlarmTime s2 now then txToState s2 ms .alarmSounding else s2
  | .setStart =>
    if ms ≤ s1.lastStateSet + 1000 then s1 else txToState s1 ms .setHours
  | .setHours =>
    if s1.fastTimeDirection ≠ 0 then
      let s2 := if ms > s1.lastFastTimeTick + 100 then
          { s1 with lastFastTimeTick := ms } else s1
      showSettableTime s2 ms false false
    else showSettableTime s1 ms true false
  | .setMinutes =>
    if s1.fastTimeDirection ≠ 0 then
      let s2 := if ms > s1.lastFastTimeTick + 100 then
          { s1 with lastFastTimeTick := ms } else s1
      showSettableTime s2 ms false false
    else showSettableTime s1 ms false true
  | .setAlarmStart =>
    if ms ≤ s1.lastStateSet + 1000 then s1 else txToState s1 ms .setAlarmHours
  | .setAlarmHours =>
    if s1.fastTimeDirection ≠ 0 then
      let s2 := if ms > s1.lastFastTimeTick + 100 then
          { s1 with
            alarmTime := changeAlarmTime s1.alarmTime s1.fastTimeDirection 0,
            lastFastTimeTick := ms }
        else s1
      showSettableTime s2 ms false false
    else showSettableTime s1 ms true false
  | .setAlarmMinutes =>
    if s1.fastTimeDirection ≠ 0 then
      let s2 := if ms > s1.lastFastTimeTick + 100 then
          { s1 with
            alarmTime := changeAlarmTime s1.alarmTime 0 s1.fastTimeDirection,
            lastFastTimeTick := ms }
        else s1
      showSettableTime s2 ms false false
    else showSettableTime s1 ms false true
  | .setAlarmOn =>
    if ms ≤ s1.lastStateSet + 1000 then s1
    else txToState (writeAlarmToEeprom s1) ms .run
  | .setAlarmOff =>
    if ms ≤ s1.lastStateSet + 1000 then s1
    else txToState (writeAlarmToEeprom s1) ms .run
  | .alarmSounding =>
    let s2 := showCurrentTimeIfNeeded s1 ms
    if ms > s2.lastAlarmAt + 5000 then
      { s2 with toneOn := true, lastAlarmAt := ms }
    else s2
  | .alarmSnoozed =>
    let s2 := showCurrentTimeIfNeeded s1 ms
    if ms > s2.lastSnoozAt + 540000 then txToState s2 ms .alarmSounding
    else s2

/-- One iteration of `loop()` up to (but not including) the button polls:
service EEPROM requests, then run the mode switch. -/
def tick (s : ClockState) (ms : Nat) (now : Int) : ClockState :=
  loopSwitch (handleEepromState s) ms now

/-! ## Traces -/

/-- An externally observable event: a main-loop tick (with its millis value
and RTC reading) or a button event delivered by one of the `check()` polls. -/
inductive Event where
  | tick (ms : Nat) (now : Int)
  | press (ms : Nat) (btn : Button) (ev : BEvent)
deriving DecidableEq, Repr

/-- Apply one event. -/
def stepEv (s : ClockState) : Event → ClockState
  | .tick ms now => tick s ms now
  | .press ms btn ev => handleButton s ms btn ev

/-- Run a trace of events. -/
def execTrace (s : ClockState) : List Event → ClockState
  | [] => s
  | e :: es => execTrace (stepEv s e) es

/-- The global initial values followed by `setup()`'s `readAlarmFromEeprom()`,
starting from EEPROM bytes `(eh, em, ef)`.  (The globals: `uiState = run`,
`isAlarmSet = true`, `brightness = 7`, everything else zero/false/empty;
the default `DateTime alarmTime` is 2000-01-01, i.e. seconds value 0.) -/
def boot (eh em ef : Nat) : ClockState :=
  readAlarmFromEeprom
    { uiState := .run
      lastStateSet := 0
      lastDisplayRefresh := 0
      blinkState := false
      lastAlarmAt := 0
      lastSnoozAt := 0
      requestEepromRead := false
      requestEepromWrite := false
      alarmTime := 0
      isAlarmSet := true
      fastTimeDirection := 0
      lastFastTimeTick := 0
      brightness := 7
      toneOn := false
      eeHour := eh
      eeMin := em
      eeSet := ef
      eeLog := [] }

/-! ## Basic facts about the time model -/

lemma hourOf_nonneg (t : Int) : 0 ≤ hourOf t := by
  unfold hourOf secOfDay; omega

lemma hourOf_le (t : Int) : hourOf t ≤ 23 := by
  unfold hourOf secOfDay; omega

lemma minuteOf_nonneg (t : Int) : 0 ≤ minuteOf t := by
  unfold minuteOf secOfDay; omega

lemma minuteOf_le (t : Int) : minuteOf t ≤ 59 := by
  unfold minuteOf secOfDay; omega

lemma hourOf_mk (h m : Nat) (hh : h ≤ 23) (hm : m ≤ 59) :
    hourOf (jan1of2019 + (h : Int) * 3600 + (m : Int) * 60) = h := by
  unfold hourOf secOfDay jan1of2019; omega

lemma minuteOf_mk (h m : Nat) (_hh : h ≤ 23) (hm : m ≤ 59) :
    minuteOf (jan1of2019 + (h : Int) * 3600 + (m : Int) * 60) = m := by
  unfold minuteOf secOfDay jan1of2019; omega

/-! ## Small facts about the service and display helpers -/

lemma hee_ui (s : ClockState) : (handleEepromState s).uiState = s.uiState := by
  unfold handleEepromState readAlarmFromEeprom writeAlarmToEeprom
  split_ifs <;> rfl

lemma hee_lastSnoozAt (s : ClockState) :
    (handleEepromState s).lastSnoozAt = s.lastSnoozAt := by
  unfold handleEepromState readAlarmFromEeprom writeAlarmToEeprom
  split_ifs <;> rfl

lemma show1_ui (s : ClockState) (ms : Nat) :
    (showCurrentTimeIfNeeded s ms).uiState = s.uiState := by
  unfold showCurrentTimeIfNeeded; split_ifs <;> rfl

lemma show1_lastSnoozAt (s : ClockState) (ms : Nat) :
    (showCurrentTimeIfNeeded s ms).lastSnoozAt = s.lastSnoozAt := by
  unfold showCurrentTimeIfNeeded; split_ifs <;> rfl

lemma isAlarmTime_show1 (s : ClockState) (ms : Nat) (now : Int) :
    isAlarmTime (showCurrentTimeIfNeeded s ms) now = isAlarmTime s now := by
  unfold showCurrentTimeIfNeeded; split_ifs <;> rfl

/-- Lemma: `isAlarmTime` spelled out as the four-way conjunction. -/
lemma isAlarmTime_iff (s : ClockState) (now : Int) :
    isAlarmTime s now = true ↔
      (s.isAlarmSet = true ∧ hourOf now = hourOf s.alarmTime ∧
        minuteOf now = minuteOf s.alarmTime ∧ secondOf now = 0) := by
  unfold isAlarmTime
  cases s.isAlarmSet <;> simp [Bool.and_eq_true, beq_iff_eq, and_assoc]

/-- The `run` arm of the mode switch, as an equation. -/
lemma loopSwitch_run_eq (t : ClockState) (ms : Nat) (now : Int)
    (h : t.uiState = UiState.run) :
    loopSwitch t ms now =
      (if isAlarmTime t now then
        txToState (showCurrentTimeIfNeeded t ms) ms UiState.alarmSounding
      else showCurrentTimeIfNeeded t ms) := by
  have e : loopSwitch t ms now =
      (if isAlarmTime (showCurrentTimeIfNeeded t ms) now then
        txToState (showCurrentTimeIfNeeded t ms) ms UiState.alarmSounding
      else showCurrentTimeIfNeeded t ms) := by
    unfold loopSwitch; rw [h]
  rw [e, isAlarmTime_show1]

/-- The `run` arm of the mode switch: fire to `alarmSounding` exactly when
`isAlarmTime` holds, otherwise stay in `run`. -/
lemma loopSwitch_run (t : ClockState) (ms : Nat) (now : Int)
    (h : t.uiState = UiState.run) :
    (loopSwitch t ms now).uiState =
      (if isAlarmTime t now then UiState.alarmSounding else UiState.run) := by
  rw [loopSwitch_run_eq t ms now h]
  split_ifs with hfire
  · rfl
  · rw [show1_ui]; exact h

/-- The `alarmSounding` arm of the mode switch, as an equation. -/
lemma loopSwitch_sounding_eq (t : ClockState) (ms : Nat) (now : Int)
    (h : t.uiState = UiState.alarmSounding) :
    loopSwitch t ms now =
      (if ms > (showCurrentTimeIfNeeded t ms).lastAlarmAt + 5000 then
        { showCurrentTimeIfNeeded t ms with toneOn := true, lastAlarmAt := ms }
      else showCurrentTimeIfNeeded t ms) := by
  unfold loopSwitch; rw [h]

/-- The `alarmSounding` arm never leaves `alarmSounding` on its own. -/
lemma loopSwitch_sounding (t : ClockState) (ms : Nat) (now : Int)
    (h : t.uiState = UiState.alarmSounding) :
    (loopSwitch t ms now).uiState = UiState.alarmSounding := by
  rw [loopSwitch_sounding_eq t ms now h]
  split_ifs <;> rw [show1_ui] <;> exact h

/-- The `setStart` arm of the mode switch, as an equation. -/
lemma loopSwitch_setStart_eq (t : ClockState) (ms : Nat) (now : Int)
    (h : t.uiState = UiState.setStart) :
    loopSwitch t ms now =
      (if ms ≤ t.lastStateSet + 1000 then t
        else txToState t ms UiState.setHours) := by
  unfold loopSwitch; rw [h]

/-- The `setAlarmStart` arm of the mode switch, as an equation. -/
lemma loopSwitch_setAlarmStart_eq (t : ClockState) (ms : Nat) (now : Int)
    (h : t.uiState = UiState.setAlarmStart) :
    loopSwitch t ms now =
      (if ms ≤ t.lastStateSet + 1000 then t
        else txToState t ms UiState.setAlarmHours) := by
  unfold loopSwitch; rw [h]

/-- The `setHours` arm of the mode switch, as an equation. -/
lemma loopSwitch_setHours_eq (t : ClockState) (ms : Nat) (now : Int)
    (h : t.uiState = UiState.setHours) :
    loopSwitch t ms now =
      (if t.fastTimeDirection ≠ 0 then
        showSettableTime (if ms > t.lastFastTimeTick + 100 then
            { t with lastFastTimeTick := ms } else t) ms false false
      else showSettableTime t ms true false) := by
  unfold loopSwitch; rw [h]

/-- The `setMinutes` arm of the mode switch, as an equation. -/
lemma loopSwitch_setMinutes_eq (t : ClockState) (ms : Nat) (now : Int)
    (h : t.uiState = UiState.setMinutes) :
    loopSwitch t ms now =
      (if t.fastTimeDirection ≠ 0 then
        showSettableTime (if ms > t.lastFastTimeTick + 100 then
            { t with lastFastTimeTick := ms } else t) ms false false
      else showSettableTime t ms false true) := by
  unfold loopSwitch; rw [h]

/-- The `setAlarmHours` arm: the fast-set edit of the in-memory alarm. -/
lemma loopSwitch_setAlarmHours_eq (t : ClockState) (ms : Nat) (now : Int)
    (h : t.uiState = UiState.setAlarmHours) :
    loopSwitch t ms now =
      (if t.fastTimeDirection ≠ 0 then
        showSettableTime (if ms > t.lastFastTimeTick + 100 then
            { t with
              alarmTime := changeAlarmTime t.alarmTime t.fastTimeDirection 0,
              lastFastTimeTick := ms }
          else t) ms false false
      else showSettableTime t ms true false) := by
  unfold loopSwitch; rw [h]

/-- The `setAlarmMinutes` arm: the fast-set edit of the in-memory alarm. -/
lemma loopSwitch_setAlarmMinutes_eq (t : ClockState) (ms : Nat) (now : Int)
    (h : t.uiState = UiState.setAlarmMinutes) :
    loopSwitch t ms now =
      (if t.fastTimeDirection ≠ 0 then
        showSettableTime (if ms > t.lastFastTimeTick + 100 then
            { t with
              alarmTime := changeAlarmTime t.alarmTime 0 t.fastTimeDirection,
              lastFastTimeTick := ms }
          else t) ms false false
      else showSettableTime t ms false true) := by
  unfold loopSwitch; rw [h]

/-- The `setAlarmOn` arm of the mode switch, as an equation: show the label
until the timeout, then persist the alarm and return to `run`. -/
lemma loopSwitch_setAlarmOn_eq (t : ClockState) (ms : Nat) (now : Int)
    (h : t.uiState = UiState.setAlarmOn) :
    loopSwitch t ms now =
      (if ms ≤ t.lastStateSet + 1000 then t
        else txToState (writeAlarmToEeprom t) ms UiState.run) := by
  unfold loopSwitch; rw [h]

/-- The `setAlarmOff` arm of the mode switch, as an equation. -/
lemma loopSwitch_setAlarmOff_eq (t : ClockState) (ms : Nat) (now : Int)
    (h : t.uiState = UiState.setAlarmOff) :
    loopSwitch t ms now =
      (if ms ≤ t.lastStateSet + 1000 then t
        else txToState (writeAlarmToEeprom t) ms UiState.run) := by
  unfold loopSwitch; rw [h]

/-- The `alarmSnoozed` arm of the mode switch, as an equation. -/
lemma loopSwitch_snoozed_eq (t : ClockState) (ms : Nat) (now : Int)
    (h : t.uiState = UiState.alarmSnoozed) :
    loopSwitch t ms now =
      (if ms > (showCurrentTimeIfNeeded t ms).lastSnoozAt + 540000 then
        txToState (showCurrentTimeIfNeeded t ms) ms UiState.alarmSounding
      else showCurrentTimeIfNeeded t ms) := by
  unfold loopSwitch; rw [h]

/-- The `alarmSnoozed` arm: wake up exactly when the snooze interval expired,
never touching `lastSnoozAt`. -/
lemma loopSwitch_snoozed (t : ClockState) (ms : Nat) (now : Int)
    (h : t.uiState = UiState.alarmSnoozed) :
    (loopSwitch t ms now).uiState =
      (if ms > t.lastSnoozAt + 540000 then UiState.alarmSounding
        else UiState.alarmSnoozed) ∧
    (loopSwitch t ms now).lastSnoozAt = t.lastSnoozAt := by
  rw [loopSwitch_snoozed_eq t ms now h, show1_lastSnoozAt]
  split_ifs with hexp
  · exact ⟨rfl, show1_lastSnoozAt t ms⟩
  · exact ⟨by rw [show1_ui]; exact h, show1_lastSnoozAt t ms⟩

/-! ## Claim theorems: the time editor (C7) -/

/-- Claim C7: `changeTime` applied with any hour/minute delta wraps the live
clock across hour and day boundaries (23:59 plus one minute yields 00:00 of
the next day); the resulting seconds field is 0 whenever the minute delta is
non-zero, and unchanged when the minute delta is zero; `changeAlarmTime`
applies the same wrapping arithmetic to the in-memory alarm value. -/
theorem time_editor_wrap_and_seconds :
    (∀ t h m : Int, m ≠ 0 → secondOf (changeTime t h m) = 0) ∧
    (∀ t h : Int, secondOf (changeTime t h 0) = secondOf t) ∧
    (∀ t : Int, hourOf t = 23 → minuteOf t = 59 →
      hourOf (changeTime t 0 1) = 0 ∧ minuteOf (changeTime t 0 1) = 0 ∧
        dayOf (changeTime t 0 1) = dayOf t + 1) ∧
    (∀ t : Int, hourOf t = 23 → minuteOf t = 59 →
      hourOf (changeAlarmTime t 0 1) = 0 ∧ minuteOf (changeAlarmTime t 0 1) = 0) := by
  refine ⟨?_, ?_, ?_, ?_⟩
  · intro t h m hm
    simp only [changeTime, secondOf, secOfDay, if_neg hm]
    omega
  · intro t h
    simp only [changeTime, secondOf, secOfDay, if_pos rfl, if_true, ite_true]
    omega
  · intro t h23 m59
    simp only [changeTime, secondOf, secOfDay, if_neg (one_ne_zero (α := ℤ))]
    unfold hourOf minuteOf dayOf secOfDay at *
    omega
  · intro t h23 m59
    unfold changeAlarmTime hourOf minuteOf secOfDay at *
    omega

/-- Witness for C7 at 23:59:00 of day 0 and at a non-zero minute delta. -/
theorem time_editor_wrap_and_seconds_witness :
    ((2 : Int) ≠ 0 ∧ secondOf (changeTime 12345 3 2) = 0) ∧
    (hourOf (86340 : Int) = 23 ∧ minuteOf (86340 : Int) = 59 ∧
      hourOf (changeTime 86340 0 1) = 0 ∧ minuteOf (changeTime 86340 0 1) = 0 ∧
      dayOf (changeTime 86340 0 1) = dayOf (86340 : Int) + 1 ∧
      hourOf (changeAlarmTime 86340 0 1) = 0 ∧
      minuteOf (changeAlarmTime 86340 0 1) = 0) := by
  have h1 := time_editor_wrap_and_seconds.1 12345 3 2 (by decide)
  have h3 := time_editor_wrap_and_seconds.2.2.1 86340 (by decide) (by decide)
  have h4 := time_editor_wrap_and_seconds.2.2.2 86340 (by decide) (by decide)
  exact ⟨⟨by decide, h1⟩, by decide, by decide, h3.1, h3.2.1, h3.2.2, h4.1, h4.2⟩

/-! ## Claim theorems: defensive EEPROM load (C8) -/

/-- Claim C8: for every byte pair read from the persistent store, an alarm
hour outside [0,23] is replaced by 0 and an alarm minute outside [0,59] is
replaced by 0, so the loaded in-memory config always has hour in [0,23] and
minute in [0,59]; no error is propagated (the load is a total function). -/
theorem eeprom_clamp_loaded_config (s : ClockState) :
    hourOf (readAlarmFromEeprom s).alarmTime
        = (if 23 < s.eeHour then 0 else (s.eeHour : Int)) ∧
    minuteOf (readAlarmFromEeprom s).alarmTime
        = (if 59 < s.eeMin then 0 else (s.eeMin : Int)) ∧
    0 ≤ hourOf (readAlarmFromEeprom s).alarmTime ∧
    hourOf (readAlarmFromEeprom s).alarmTime ≤ 23 ∧
    0 ≤ minuteOf (readAlarmFromEeprom s).alarmTime ∧
    minuteOf (readAlarmFromEeprom s).alarmTime ≤ 59 := by
  have hat : (readAlarmFromEeprom s).alarmTime
      = jan1of2019 + ((if 23 < s.eeHour then 0 else s.eeHour : Nat) : Int) * 3600
          + ((if 59 < s.eeMin then 0 else s.eeMin : Nat) : Int) * 60 := by
    simp [readAlarmFromEeprom]
  have hhb : (if 23 < s.eeHour then 0 else s.eeHour : Nat) ≤ 23 := by
    split <;> omega
  have hmb : (if 59 < s.eeMin then 0 else s.eeMin : Nat) ≤ 59 := by
    split <;> omega
  have hh := hourOf_mk _ _ hhb hmb
  have hm := minuteOf_mk _ _ hhb hmb
  rw [hat, hh, hm]
  refine ⟨?_, ?_, by positivity, ?_, by positivity, ?_⟩
  · split <;> simp
  · split <;> simp
  · split <;> omega
  · split <;> omega

/-! ## Claim theorems: commit long-press and the enabled flag (C2) -/

/-- Claim C2 (code evaluated at the failing input): with the alarm disabled
and the machine in `setAlarmHours`, a long press of the alarm-set button
transitions to `setAlarmOn` and requests a persist, but leaves `isAlarmSet`
false — the handler never forces the flag to true, contradicting its own
comment ("always turn alarm on after setting"). -/
theorem commit_longpress_leaves_alarm_off :
    (handleButton { boot 7 0 0 with uiState := UiState.setAlarmHours } 100
        Button.setAlarm BEvent.longPressed).uiState = UiState.setAlarmOn ∧
    (handleButton { boot 7 0 0 with uiState := UiState.setAlarmHours } 100
        Button.setAlarm BEvent.longPressed).requestEepromWrite = true ∧
    (handleButton { boot 7 0 0 with uiState := UiState.setAlarmHours } 100
        Button.setAlarm BEvent.longPressed).isAlarmSet = false := by
  decide

/-! ## Claim theorems: Snooz long-press (C3) -/

/-- Counterexample to C3 as stated: in `setHours` (not an alarm mode) a Snooz
long-press is not a no-op — it changes the mode to `run`. -/
theorem snooz_longpress_not_noop :
    (handleButton { boot 7 0 1 with uiState := UiState.setHours } 0
        Button.snooz BEvent.longPressed).uiState = UiState.run ∧
    UiState.run ≠ UiState.setHours := by
  decide

/-- Claim C3 (amended): a Snooz long-press transitions to `run` and silences
the tone with the enabled flag (and the whole alarm configuration) unchanged
in EVERY mode — the handler has no mode guard, so this holds not only in
`alarmSounding`/`alarmSnoozed` but in all eleven modes. -/
theorem snooz_longpress_always_run (s : ClockState) (ms : Nat) :
    (handleButton s ms Button.snooz BEvent.longPressed).uiState = UiState.run ∧
    (handleButton s ms Button.snooz BEvent.longPressed).toneOn = false ∧
    (handleButton s ms Button.snooz BEvent.longPressed).isAlarmSet = s.isAlarmSet ∧
    (handleButton s ms Button.snooz BEvent.longPressed).alarmTime = s.alarmTime ∧
    (handleButton s ms Button.snooz BEvent.longPressed).eeHour = s.eeHour ∧
    (handleButton s ms Button.snooz BEvent.longPressed).eeMin = s.eeMin ∧
    (handleButton s ms Button.snooz BEvent.longPressed).eeSet = s.eeSet ∧
    (handleButton s ms Button.snooz BEvent.longPressed).brightness = s.brightness := by
  simp [handleButton, txToState]

/-! ## Claim theorems: alarm firing predicate (C1) -/

/-- Claim C1: while the mode is `run`, a tick transitions to `alarmSounding`
iff the alarm-enabled flag is true, the current hour and minute equal the
configured alarm hour and minute, and the current second is 0.  The
configuration consulted is the one in memory after the tick's EEPROM service
pass (`handleEepromState`), which is what the source's check reads. -/
theorem alarm_fire_iff (s : ClockState) (ms : Nat) (now : Int)
    (h : s.uiState = UiState.run) :
    (tick s ms now).uiState = UiState.alarmSounding ↔
      ((handleEepromState s).isAlarmSet = true ∧
        hourOf now = hourOf (handleEepromState s).alarmTime ∧
        minuteOf now = minuteOf (handleEepromState s).alarmTime ∧
        secondOf now = 0) := by
  have h1 : (handleEepromState s).uiState = UiState.run := by rw [hee_ui]; exact h
  unfold tick
  rw [loopSwitch_run _ ms now h1, ← isAlarmTime_iff]
  by_cases hb : isAlarmTime (handleEepromState s) now = true
  · simp [hb]
  · simp [hb]

/-- Witness for C1: the boot state with alarm 07:00 enabled fires at
07:00:00 (RTC seconds value 25200). -/
theorem alarm_fire_iff_witness :
    (boot 7 0 1).uiState = UiState.run ∧
    (tick (boot 7 0 1) 2000 25200).uiState = UiState.alarmSounding := by
  refine ⟨by decide, ?_⟩
  exact (alarm_fire_iff (boot 7 0 1) 2000 25200 (by decide)).mpr (by decide)

/-! ## Claim theorems: snooze press and snooze expiry (C6) -/

/-- Claim C6: a Snooz press while sounding records the snooze start time,
silences the tone and moves to `alarmSnoozed`; ticks before the fixed
540000 ms snooze interval has elapsed keep `alarmSnoozed` (and the recorded
start); the first tick past the interval returns to `alarmSounding` with no
button input. -/
theorem snooze_records_and_expires (s : ClockState) (ms : Nat)
    (h : s.uiState = UiState.alarmSounding) :
    ((handleButton s ms Button.snooz BEvent.pressed).uiState = UiState.alarmSnoozed ∧
      (handleButton s ms Button.snooz BEvent.pressed).lastSnoozAt = ms ∧
      (handleButton s ms Button.snooz BEvent.pressed).toneOn = false) ∧
    (∀ (s2 : ClockState) (ms2 : Nat) (now : Int),
      s2.uiState = UiState.alarmSnoozed → ms2 ≤ s2.lastSnoozAt + 540000 →
        (tick s2 ms2 now).uiState = UiState.alarmSnoozed ∧
        (tick s2 ms2 now).lastSnoozAt = s2.lastSnoozAt) ∧
    (∀ (s2 : ClockState) (ms2 : Nat) (now : Int),
      s2.uiState = UiState.alarmSnoozed → ms2 > s2.lastSnoozAt + 540000 →
        (tick s2 ms2 now).uiState = UiState.alarmSounding) := by
  refine ⟨?_, ?_, ?_⟩
  · simp [handleButton, txToState, h]
  · intro s2 ms2 now h2 hle
    have h1 : (handleEepromState s2).uiState = UiState.alarmSnoozed := by
      rw [hee_ui]; exact h2
    have hs := loopSwitch_snoozed (handleEepromState s2) ms2 now h1
    rw [hee_lastSnoozAt] at hs
    unfold tick
    rw [hs.1, hs.2]
    exact ⟨if_neg (by omega), rfl⟩
  · intro s2 ms2 now h2 hgt
    have h1 : (handleEepromState s2).uiState = UiState.alarmSnoozed := by
      rw [hee_ui]; exact h2
    have hs := loopSwitch_snoozed (handleEepromState s2) ms2 now h1
    rw [hee_lastSnoozAt] at hs
    unfold tick
    rw [hs.1]
    exact if_pos (by omega)

/-- Witness for C6 at a concrete sounding state and concrete tick times. -/
theorem snooze_records_and_expires_witness :
    ({ boot 7 0 1 with uiState := UiState.alarmSounding } : ClockState).uiState
        = UiState.alarmSounding ∧
    (handleButton { boot 7 0 1 with uiState := UiState.alarmSounding } 3000
        Button.snooz BEvent.pressed).uiState = UiState.alarmSnoozed ∧
    (tick { boot 7 0 1 with uiState := UiState.alarmSnoozed, lastSnoozAt := 3000 }
        543001 0).uiState = UiState.alarmSounding := by
  have h := snooze_records_and_expires
    { boot 7 0 1 with uiState := UiState.alarmSounding } 3000 (by decide)
  refine ⟨by decide, h.1.1, ?_⟩
  exact h.2.2 { boot 7 0 1 with uiState := UiState.alarmSnoozed, lastSnoozAt := 3000 }
    543001 0 (by decide) (by decide)

/-! ## Claim theorems: brightness clamping (C9) -/

/-- Sequence of single-step brightness adjustments: `true` = Plus (+1),
`false` = Minus (byte value 255, i.e. -1). -/
def applyBrightSteps : Nat → List Bool → Nat
  | b, [] => b
  | b, u :: us => applyBrightSteps (changeBrightness b (if u then 1 else 255)) us

lemma changeBrightness_step_le (b : Nat) (hb : b ≤ 7) (u : Bool) :
    changeBrightness b (if u then 1 else 255) ≤ 7 := by
  interval_cases b <;> cases u <;> decide

/-- Claim C9: starting from a brightness in [0,7], every sequence of ±1
adjustments stays in [0,7]; a decrement at 0 leaves 0 and an increment at 7
leaves 7 (clamping, not wraparound); and no button event changes brightness
while the mode is not `run`. -/
theorem brightness_clamped_and_run_only (b : Nat) (us : List Bool) (hb : b ≤ 7) :
    applyBrightSteps b us ≤ 7 ∧
    changeBrightness 0 255 = 0 ∧ changeBrightness 7 1 = 7 ∧
    (∀ (s : ClockState) (ms : Nat) (btn : Button) (ev : BEvent),
      s.uiState ≠ UiState.run →
        (handleButton s ms btn ev).brightness = s.brightness) := by
  refine ⟨?_, by decide, by decide, ?_⟩
  · induction us generalizing b with
    | nil => simpa [applyBrightSteps] using hb
    | cons u us ih => exact ih _ (changeBrightness_step_le b hb u)
  · intro s ms btn ev hne
    cases btn <;> cases ev <;>
      simp [handleButton, txToState, changeBrightnessS, hne,
        apply_ite ClockState.brightness]

/-- Witness for C9: six consecutive decrements from 3 stay within range, and
a Plus press in `setHours` leaves brightness untouched. -/
theorem brightness_clamped_and_run_only_witness :
    (3 ≤ 7 ∧
      applyBrightSteps 3 [false, false, false, false, false, false] ≤ 7) ∧
    (handleButton { boot 7 0 1 with uiState := UiState.setHours } 5
        Button.plus BEvent.pressed).brightness
      = ({ boot 7 0 1 with uiState := UiState.setHours } : ClockState).brightness := by
  have h := brightness_clamped_and_run_only 3
    [false, false, false, false, false, false] (by decide)
  exact ⟨⟨by decide, h.1⟩,
    h.2.2.2 { boot 7 0 1 with uiState := UiState.setHours } 5
      Button.plus BEvent.pressed (by decide)⟩

/-! ## Claim theorems: at-most-one fire per matching minute (C4) -/

/-- Number of `run → alarmSounding` transitions (alarm fires) along a trace. -/
def fireCount (s : ClockState) : List Event → Nat
  | [] => 0
  | e :: es =>
    (if s.uiState = UiState.run ∧ (stepEv s e).uiState = UiState.alarmSounding
      then 1 else 0) + fireCount (stepEv s e) es

/-- Predicate on traces: no event takes the machine from a non-`run` mode
back into `run` (no re-entry into `run` while the trace runs). -/
def noRunReentry : ClockState → List Event → Prop
  | _, [] => True
  | s, e :: es =>
    ¬(s.uiState ≠ UiState.run ∧ (stepEv s e).uiState = UiState.run) ∧
    noRunReentry (stepEv s e) es

instance instDecNoRunReentry : (s : ClockState) → (es : List Event) →
    Decidable (noRunReentry s es)
  | _, [] => isTrue trivial
  | s, e :: es =>
    have : Decidable (noRunReentry (stepEv s e) es) :=
      instDecNoRunReentry (stepEv s e) es
    by unfold noRunReentry; infer_instance

/-- Counterexample to C4 as stated: with alarm 07:00 enabled, a tick at
07:00:00 fires; a Snooz long-press delivered 10 ms later (still in the same
wall-clock second) returns to `run`, and the next tick — the RTC still
reading 07:00:00 — fires again: two `run → alarmSounding` transitions inside
one matching minute. -/
theorem alarm_double_fire_same_minute :
    fireCount (boot 7 0 1)
        [Event.tick 2000 25200,
          Event.press 2010 Button.snooz BEvent.longPressed,
          Event.tick 2020 25200] = 2 ∧
    hourOf 25200 = hourOf (boot 7 0 1).alarmTime ∧
    minuteOf 25200 = minuteOf (boot 7 0 1).alarmTime ∧
    secondOf 25200 = 0 ∧
    (boot 7 0 1).isAlarmSet = true := by
  decide

/-- With no re-entry into `run`, a trace starting outside `run` never
fires: the `run → alarmSounding` transition needs a `run` pre-state. -/
lemma fireCount_zero_of_ne_run (s : ClockState) (es : List Event)
    (h : s.uiState ≠ UiState.run) (hn : noRunReentry s es) :
    fireCount s es = 0 := by
  induction es generalizing s with
  | nil => rfl
  | cons e es ih =>
    unfold noRunReentry at hn
    obtain ⟨h1, h2⟩ := hn
    have hpost : (stepEv s e).uiState ≠ UiState.run := fun hr => h1 ⟨h, hr⟩
    unfold fireCount
    rw [if_neg (fun hc => h hc.1)]
    simpa using ih (stepEv s e) hpost h2

/-- Claim C4 (amended): within the matching minute the alarm fires at most
once regardless of how many ticks occur and which button events arrive,
provided no event returns the machine to `run` during that minute: a fire
leaves `run` for `alarmSounding`, so a second fire needs a re-entry into
`run` first.  (The counterexample shows the unrestricted claim is false:
a Snooz long-press inside the zero-second window re-enters `run` and lets
the check fire again.) -/
theorem alarm_fire_once_no_run_reentry (s : ClockState) (es : List Event)
    (hn : noRunReentry s es) :
    fireCount s es ≤ 1 := by
  induction es generalizing s with
  | nil => simp [fireCount]
  | cons e es ih =>
    unfold noRunReentry at hn
    obtain ⟨h1, h2⟩ := hn
    unfold fireCount
    by_cases hf : s.uiState = UiState.run ∧
        (stepEv s e).uiState = UiState.alarmSounding
    · have hpost : (stepEv s e).uiState ≠ UiState.run := by
        rw [hf.2]; decide
      rw [if_pos hf, fireCount_zero_of_ne_run (stepEv s e) es hpost h2]
    · rw [if_neg hf]
      simpa using ih (stepEv s e) h2

/-- Witness for C4 (amended) on a concrete trace through the matching
minute that does contain a button event (a Snooz press into
`alarmSnoozed`) but never re-enters `run`. -/
theorem alarm_fire_once_no_run_reentry_witness :
    noRunReentry (boot 7 0 1)
      [Event.tick 2000 25200,
        Event.press 2010 Button.snooz BEvent.pressed,
        Event.tick 3000 26200] ∧
    fireCount (boot 7 0 1)
      [Event.tick 2000 25200,
        Event.press 2010 Button.snooz BEvent.pressed,
        Event.tick 3000 26200] ≤ 1 := by
  refine ⟨by decide, ?_⟩
  exact alarm_fire_once_no_run_reentry (boot 7 0 1)
    [Event.tick 2000 25200,
      Event.press 2010 Button.snooz BEvent.pressed,
      Event.tick 3000 26200] (by decide)

/-! ## Claim theorems: double EEPROM commit on long-press exit (C10) -/

/-- Claim C10: a long-press AlarmSet exit from an alarm-set mode writes the
alarm configuration to the EEPROM twice for the single commit: once when the
pending write-request flag is serviced at the start of the next tick, and a
second time, with identical values, when the `setAlarmOn` label times out on
its way back to `run`.  The ghost `eeLog` records one entry per
`writeAlarmToEeprom` call. -/
theorem double_eeprom_commit (s : ClockState) (ms0 ms1 ms2 : Nat)
    (now1 now2 : Int)
    (h0 : s.uiState = UiState.setAlarmStart ∨ s.uiState = UiState.setAlarmHours ∨
      s.uiState = UiState.setAlarmMinutes)
    (hr : s.requestEepromRead = false)
    (h1 : ms1 ≤ ms0 + 1000) (h2 : ms2 > ms0 + 1000) :
    (tick (tick (handleButton s ms0 Button.setAlarm BEvent.longPressed) ms1 now1)
        ms2 now2).uiState = UiState.run ∧
    (tick (tick (handleButton s ms0 Button.setAlarm BEvent.longPressed) ms1 now1)
        ms2 now2).eeLog = s.eeLog ++ [cfgBytes s, cfgBytes s] := by
  have e1 : handleButton s ms0 Button.setAlarm BEvent.longPressed
      = txToState { s with requestEepromWrite := true } ms0 UiState.setAlarmOn := by
    rcases h0 with h0 | h0 | h0 <;>
      simp [handleButton, uiIdx, h0]
  set t1 := txToState { s with requestEepromWrite := true } ms0 UiState.setAlarmOn
    with ht1
  set t2 := ({ writeAlarmToEeprom t1 with requestEepromWrite := false } : ClockState)
    with ht2
  have e2 : tick t1 ms1 now1 = t2 := by
    have hsvc : handleEepromState t1 = t2 := by
      unfold handleEepromState
      rw [if_neg (by rw [show t1.requestEepromRead = false from hr]; simp),
        if_pos (show t1.requestEepromWrite = true from rfl)]
    have hui : t2.uiState = UiState.setAlarmOn := rfl
    have hls : t2.lastStateSet = ms0 := rfl
    unfold tick
    rw [hsvc, loopSwitch_setAlarmOn_eq t2 ms1 now1 hui, if_pos (by omega)]
  have e3 : tick t2 ms2 now2 = txToState (writeAlarmToEeprom t2) ms2 UiState.run := by
    have hsvc : handleEepromState t2 = t2 := by
      unfold handleEepromState
      rw [if_neg (by rw [show t2.requestEepromRead = false from hr]; simp),
        if_neg (by rw [show t2.requestEepromWrite = false from rfl]; simp)]
    have hui : t2.uiState = UiState.setAlarmOn := rfl
    have hls : t2.lastStateSet = ms0 := rfl
    unfold tick
    rw [hsvc, loopSwitch_setAlarmOn_eq t2 ms2 now2 hui, if_neg (by omega)]
  rw [e1, e2, e3]
  constructor
  · rfl
  · have hcfg : cfgBytes t2 = cfgBytes s := by
      simp [ht2, ht1, cfgBytes, txToState, writeAlarmToEeprom]
    simp [txToState, writeAlarmToEeprom, ht2, ht1, hcfg, cfgBytes]

/-- Witness for C10 from `setAlarmHours` with concrete times. -/
theorem double_eeprom_commit_witness :
    (tick (tick (handleButton { boot 7 0 1 with uiState := UiState.setAlarmHours }
        100 Button.setAlarm BEvent.longPressed) 600 0) 1200 0).uiState
      = UiState.run ∧
    (tick (tick (handleButton { boot 7 0 1 with uiState := UiState.setAlarmHours }
        100 Button.setAlarm BEvent.longPressed) 600 0) 1200 0).eeLog
      = ({ boot 7 0 1 with uiState := UiState.setAlarmHours } : ClockState).eeLog
          ++ [cfgBytes { boot 7 0 1 with uiState := UiState.setAlarmHours },
              cfgBytes { boot 7 0 1 with uiState := UiState.setAlarmHours }] := by
  exact double_eeprom_commit { boot 7 0 1 with uiState := UiState.setAlarmHours }
    100 600 1200 0 0 (by decide) (by decide) (by decide) (by decide)

/-! ## Claim C5: in-memory vs persisted alarm configuration

The invariant machinery: `cfgEq` says the in-memory alarm configuration
(hour, minute, enabled flag) agrees with the EEPROM bytes; `alarmCfgMode`
are the modes between entering alarm-set and the commit back to `run`. -/

/-- In-memory AlarmConfig equals the persisted one (the stored flag byte is
read as a boolean, 0 = off, non-zero = on, as the source does). -/
def cfgEq (s : ClockState) : Prop :=
  hourOf s.alarmTime = (s.eeHour : Int) ∧
  minuteOf s.alarmTime = (s.eeMin : Int) ∧
  s.isAlarmSet = (s.eeSet != 0)

instance (s : ClockState) : Decidable (cfgEq s) := by
  unfold cfgEq; infer_instance

/-- The persisted bytes denote a well-formed configuration. -/
def validEe (s : ClockState) : Prop := s.eeHour ≤ 23 ∧ s.eeMin ≤ 59

/-- The modes strictly between entering alarm-set and the commit back to
`run` (where in-memory and persisted configuration may legitimately differ). -/
def alarmCfgMode (u : UiState) : Prop :=
  u = UiState.setAlarmStart ∨ u = UiState.setAlarmHours ∨
  u = UiState.setAlarmMinutes ∨ u = UiState.setAlarmOn ∨ u = UiState.setAlarmOff

instance (u : UiState) : Decidable (alarmCfgMode u) := by
  unfold alarmCfgMode; infer_instance

/-- The inductive invariant: the EEPROM bytes are well formed, and outside
the alarm-set window the in-memory configuration equals the persisted one. -/
def Inv (s : ClockState) : Prop :=
  validEe s ∧ (¬ alarmCfgMode s.uiState → cfgEq s)

/-- The configuration-relevant fields of a state. -/
def cfgPart (s : ClockState) : Int × Bool × Nat × Nat × Nat :=
  (s.alarmTime, s.isAlarmSet, s.eeHour, s.eeMin, s.eeSet)

lemma Inv_retarget {t X : ClockState} (h : Inv t) (hp : cfgPart X = cfgPart t)
    (himp : ¬ alarmCfgMode X.uiState → ¬ alarmCfgMode t.uiState) : Inv X := by
  obtain ⟨hv, hc⟩ := h
  have e := hp
  simp only [cfgPart, Prod.mk.injEq] at e
  obtain ⟨e1, e2, e3, e4, e5⟩ := e
  refine ⟨?_, fun hn => ?_⟩
  · unfold validEe at hv ⊢; omega
  · have hct := hc (himp hn)
    unfold cfgEq at hct ⊢
    rw [e1, e2, e3, e4, e5]
    exact hct

lemma Inv_unsafe {X : ClockState} (hv : validEe X)
    (hu : alarmCfgMode X.uiState) : Inv X :=
  ⟨hv, fun hn => absurd hu hn⟩

lemma not_acm_of_idx13 (u : UiState) (h1 : 1 ≤ uiIdx u) (h3 : uiIdx u ≤ 3) :
    ¬ alarmCfgMode u := by
  cases u <;> revert h1 h3 <;> decide

lemma cfgEq_write (s : ClockState) : cfgEq (writeAlarmToEeprom s) := by
  unfold cfgEq writeAlarmToEeprom
  refine ⟨?_, ?_, ?_⟩
  · simp [Int.toNat_of_nonneg (hourOf_nonneg s.alarmTime)]
  · simp [Int.toNat_of_nonneg (minuteOf_nonneg s.alarmTime)]
  · cases hb : s.isAlarmSet <;> simp [hb]

lemma validEe_write (s : ClockState) : validEe (writeAlarmToEeprom s) := by
  have h1 := hourOf_le s.alarmTime
  have h2 := minuteOf_le s.alarmTime
  have h3 := hourOf_nonneg s.alarmTime
  have h4 := minuteOf_nonneg s.alarmTime
  unfold validEe writeAlarmToEeprom
  constructor <;> simp <;> omega

lemma cfgEq_read (s : ClockState) (hv : validEe s) : cfgEq (readAlarmFromEeprom s) := by
  obtain ⟨h1, h2⟩ := hv
  unfold cfgEq readAlarmFromEeprom
  rw [if_neg (by omega), if_neg (by omega)]
  exact ⟨hourOf_mk s.eeHour s.eeMin h1 h2, minuteOf_mk s.eeHour s.eeMin h1 h2, rfl⟩

/-- Servicing the EEPROM flags preserves the invariant: a read copies the
(valid) persisted configuration into memory, a write copies memory out. -/
lemma inv_hee (s : ClockState) (h : Inv s) : Inv (handleEepromState s) := by
  obtain ⟨hv, hc⟩ := h
  unfold handleEepromState
  split_ifs with h1 h2
  · exact ⟨hv, fun _ => cfgEq_read s hv⟩
  · exact ⟨validEe_write s, fun _ => cfgEq_write s⟩
  · exact ⟨hv, hc⟩

lemma hee_cfgEq (s : ClockState) (h : Inv s) (hc : ¬ alarmCfgMode s.uiState) :
    cfgEq (handleEepromState s) := by
  have hi := inv_hee s h
  exact hi.2 (by rw [hee_ui]; exact hc)

/-- Allowed events: the unconditional Snooz long-press escape is excluded
while the machine is in an alarm-set or alarm-label mode (the classes of
traces for which the amended C5 invariant is claimed). -/
def allowed (s : ClockState) : Event → Prop
  | .press _ .snooz .longPressed => ¬ alarmCfgMode s.uiState
  | _ => True

instance (s : ClockState) (e : Event) : Decidable (allowed s e) := by
  rcases e with ⟨ms, now⟩ | ⟨ms, btn, ev⟩
  · exact isTrue trivial
  · cases btn <;> cases ev <;>
      first
      | exact isTrue trivial
      | exact inferInstanceAs (Decidable (¬ alarmCfgMode s.uiState))

lemma cfgPart_show1 (s : ClockState) (ms : Nat) :
    cfgPart (showCurrentTimeIfNeeded s ms) = cfgPart s := by
  unfold showCurrentTimeIfNeeded; split_ifs <;> rfl

lemma cfgPart_show2 (s : ClockState) (ms : Nat) (bh bm : Bool) :
    cfgPart (showSettableTime s ms bh bm) = cfgPart s := by
  unfold showSettableTime; dsimp only; split_ifs <;> rfl

lemma ui_show2 (s : ClockState) (ms : Nat) (bh bm : Bool) :
    (showSettableTime s ms bh bm).uiState = s.uiState := by
  unfold showSettableTime; dsimp only; split_ifs <;> rfl

lemma validEe_show2 (s : ClockState) (ms : Nat) (bh bm : Bool) :
    validEe (showSettableTime s ms bh bm) ↔ validEe s := by
  unfold showSettableTime; dsimp only; split_ifs <;> exact Iff.rfl

set_option maxHeartbeats 2000000 in
/-- Every button event preserves the invariant, except that a Snooz
long-press needs to be allowed. -/
lemma inv_button (s : ClockState) (ms : Nat) (btn : Button) (ev : BEvent)
    (h : Inv s) (ha : allowed s (Event.press ms btn ev)) :
    Inv (handleButton s ms btn ev) := by
  cases btn <;> cases ev <;>
    simp only [handleButton] <;>
    split_ifs <;>
    first
    | exact Inv_retarget h rfl (fun hn => hn)
    | exact Inv_retarget h rfl (fun _ => ha)
    | (refine Inv_unsafe h.1 ?_ <;> simp [alarmCfgMode, txToState] <;> done)
    | (refine Inv_retarget h rfl (fun _ => ?_) <;> simp_all [alarmCfgMode] <;> done)
    | (refine Inv_unsafe h.1 ?_ <;> simp_all [alarmCfgMode, txToState] <;> done)
    | (refine Inv_retarget h rfl (fun _ => not_acm_of_idx13 s.uiState ?_ ?_) <;>
        omega)
    | (simp_all <;> done)

/-- Every main-loop tick preserves the invariant. -/
lemma inv_tick (s : ClockState) (ms : Nat) (now : Int) (h : Inv s) :
    Inv (tick s ms now) := by
  have ht : Inv (handleEepromState s) := inv_hee s h
  unfold tick
  set t := handleEepromState s with hts
  cases hu : t.uiState
  case run =>
    have hp : cfgPart (loopSwitch t ms now) = cfgPart t := by
      rw [loopSwitch_run_eq t ms now hu]
      split_ifs <;> exact cfgPart_show1 t ms
    exact Inv_retarget ht hp (fun _ => by rw [hu]; decide)
  case setStart =>
    have hp : cfgPart (loopSwitch t ms now) = cfgPart t := by
      rw [loopSwitch_setStart_eq t ms now hu]
      split_ifs <;> rfl
    exact Inv_retarget ht hp (fun _ => by rw [hu]; decide)
  case setHours =>
    have hp : cfgPart (loopSwitch t ms now) = cfgPart t := by
      rw [loopSwitch_setHours_eq t ms now hu]
      split_ifs <;> exact cfgPart_show2 _ ms _ _
    exact Inv_retarget ht hp (fun _ => by rw [hu]; decide)
  case setMinutes =>
    have hp : cfgPart (loopSwitch t ms now) = cfgPart t := by
      rw [loopSwitch_setMinutes_eq t ms now hu]
      split_ifs <;> exact cfgPart_show2 _ ms _ _
    exact Inv_retarget ht hp (fun _ => by rw [hu]; decide)
  case setAlarmStart =>
    refine Inv_unsafe ?_ ?_
    · rw [loopSwitch_setAlarmStart_eq t ms now hu]
      split_ifs <;> exact ht.1
    · rw [loopSwitch_setAlarmStart_eq t ms now hu]
      split_ifs
      · simp [alarmCfgMode, hu]
      · simp [alarmCfgMode, txToState]
  case setAlarmHours =>
    refine Inv_unsafe ?_ ?_
    · rw [loopSwitch_setAlarmHours_eq t ms now hu]
      split_ifs <;> exact (validEe_show2 _ ms _ _).mpr ht.1
    · rw [loopSwitch_setAlarmHours_eq t ms now hu]
      split_ifs <;> (rw [ui_show2]; simp [alarmCfgMode, hu])
  case setAlarmMinutes =>
    refine Inv_unsafe ?_ ?_
    · rw [loopSwitch_setAlarmMinutes_eq t ms now hu]
      split_ifs <;> exact (validEe_show2 _ ms _ _).mpr ht.1
    · rw [loopSwitch_setAlarmMinutes_eq t ms now hu]
      split_ifs <;> (rw [ui_show2]; simp [alarmCfgMode, hu])
  case setAlarmOn =>
    rw [loopSwitch_setAlarmOn_eq t ms now hu]
    split_ifs
    · exact ht
    · exact ⟨validEe_write t, fun _ => cfgEq_write t⟩
  case setAlarmOff =>
    rw [loopSwitch_setAlarmOff_eq t ms now hu]
    split_ifs
    · exact ht
    · exact ⟨validEe_write t, fun _ => cfgEq_write t⟩
  case alarmSounding =>
    have hp : cfgPart (loopSwitch t ms now) = cfgPart t := by
      rw [loopSwitch_sounding_eq t ms now hu]
      split_ifs <;> exact cfgPart_show1 t ms
    exact Inv_retarget ht hp (fun _ => by rw [hu]; decide)
  case alarmSnoozed =>
    have hp : cfgPart (loopSwitch t ms now) = cfgPart t := by
      rw [loopSwitch_snoozed_eq t ms now hu]
      split_ifs <;> exact cfgPart_show1 t ms
    exact Inv_retarget ht hp (fun _ => by rw [hu]; decide)

/-- Traces along which every event is allowed at the state where it is
delivered (no Snooz long-press while in an alarm-set or alarm-label mode). -/
inductive SafeFrom : ClockState → List Event → Prop
  | nil (s : ClockState) : SafeFrom s []
  | cons (s : ClockState) (e : Event) (es : List Event) :
      allowed s e → SafeFrom (stepEv s e) es → SafeFrom s (e :: es)

lemma inv_step (s : ClockState) (e : Event) (h : Inv s) (ha : allowed s e) :
    Inv (stepEv s e) := by
  cases e with
  | tick ms now => exact inv_tick s ms now h
  | press ms btn ev => exact inv_button s ms btn ev h ha

lemma inv_execTrace (s : ClockState) (es : List Event) (h : Inv s)
    (hs : SafeFrom s es) : Inv (execTrace s es) := by
  induction es generalizing s with
  | nil => exact h
  | cons e es ih =>
    cases hs with
    | cons _ _ _ ha hs' => exact ih (stepEv s e) (inv_step s e h ha) hs'

/-- Counterexample to C5 as stated: open alarm-set, reload, advance to
`setAlarmHours`, bump the alarm hour (6 → 7) and escape with a Snooz
long-press.  The resulting state is reachable, its mode is `run`, yet the
in-memory alarm hour is 7 while the persisted byte is still 6. -/
theorem run_desync_after_snooz_escape :
    (execTrace (boot 6 30 1)
        [Event.press 1500 Button.setAlarm BEvent.longPressed,
          Event.tick 1600 0,
          Event.press 1700 Button.setAlarm BEvent.clicked,
          Event.press 1800 Button.plus BEvent.pressed,
          Event.press 2900 Button.snooz BEvent.longPressed]).uiState
      = UiState.run ∧
    ¬ cfgEq (execTrace (boot 6 30 1)
        [Event.press 1500 Button.setAlarm BEvent.longPressed,
          Event.tick 1600 0,
          Event.press 1700 Button.setAlarm BEvent.clicked,
          Event.press 1800 Button.plus BEvent.pressed,
          Event.press 2900 Button.snooz BEvent.longPressed]) := by
  decide

/-- Claim C5 (amended): starting from boot with well-formed persisted bytes,
along every trace that contains no Snooz long-press delivered during an
alarm-set or alarm-label mode, every state whose mode is `run` has the
in-memory AlarmConfig equal to the persisted one; the two diverge only in
the alarm-set window.  (The counterexample shows the unrestricted claim is
false: the unguarded Snooz long-press escape reaches `run` with uncommitted
edits.) -/
theorem run_config_sync_of_safe (eh em ef : Nat) (es : List Event)
    (h1 : eh ≤ 23) (h2 : em ≤ 59)
    (hs : SafeFrom (boot eh em ef) es)
    (hrun : (execTrace (boot eh em ef) es).uiState = UiState.run) :
    cfgEq (execTrace (boot eh em ef) es) := by
  have hb : Inv (boot eh em ef) := by
    refine ⟨⟨h1, h2⟩, fun _ => ?_⟩
    exact cfgEq_read _ ⟨h1, h2⟩
  have hi := inv_execTrace (boot eh em ef) es hb hs
  exact hi.2 (by rw [hrun]; decide)

/-- Witness for C5 (amended): a concrete safe trace through an alarm edit
and commit, ending at `run` with memory and store in agreement. -/
theorem run_config_sync_of_safe_witness :
    cfgEq (execTrace (boot 6 30 1)
        [Event.press 1500 Button.setAlarm BEvent.longPressed,
          Event.tick 1600 0,
          Event.press 1700 Button.setAlarm BEvent.clicked,
          Event.press 1800 Button.plus BEvent.pressed,
          Event.press 1900 Button.setAlarm BEvent.longPressed,
          Event.tick 2000 0,
          Event.tick 3000 0]) := by
  refine run_config_sync_of_safe 6 30 1
    [Event.press 1500 Button.setAlarm BEvent.longPressed,
      Event.tick 1600 0,
      Event.press 1700 Button.setAlarm BEvent.clicked,
      Event.press 1800 Button.plus BEvent.pressed,
      Event.press 1900 Button.setAlarm BEvent.longPressed,
      Event.tick 2000 0,
      Event.tick 3000 0]
    (by decide) (by decide) ?_ (by decide)
  refine SafeFrom.cons _ _ _ (by decide) ?_
  refine SafeFrom.cons _ _ _ (by decide) ?_
  refine SafeFrom.cons _ _ _ (by decide) ?_
  refine SafeFrom.cons _ _ _ (by decide) ?_
  refine SafeFrom.cons _ _ _ (by decide) ?_
  refine SafeFrom.cons _ _ _ (by decide) ?_
  refine SafeFrom.cons _ _ _ (by decide) ?_
  exact SafeFrom.nil _

end ArduinoClock
